import Mathlib

/-!
Verification of the go-dws-primer turtle-graphics engine and execution
orchestration layer against its natural-language specification.

The definitions below are a shallow embedding of the JavaScript sources:
  * src/turtle/turtle-engine.js   (TurtleEngine class)
  * src/turtle/turtle-api.js      (TurtleAPI global bindings)
  * src/core/dwscript-api.js      (result and error normalization)
  * src/core/executor.js          (executeCode orchestration)

JavaScript numbers are modelled by the real numbers (for the turtle
engine, whose arithmetic is trigonometric) and by the rationals (for the
normalization and orchestration layer, whose arithmetic is exact).  The
JavaScript remainder operator, which rounds the quotient toward zero, is
modelled explicitly by jsMod.
-/

namespace DwsPrimer

noncomputable section TurtleModel

/-- Truncation toward zero of a real number, as performed by the
JavaScript remainder operator on its implied quotient. -/
noncomputable def jsTrunc (x : ℝ) : ℤ :=
  if 0 ≤ x then ⌊x⌋ else ⌈x⌉

/-- The JavaScript remainder operator a % n for numbers: the remainder
after dividing with the quotient rounded toward zero, so the result has
the sign of the dividend. -/
noncomputable def jsMod (a n : ℝ) : ℝ :=
  a - n * (jsTrunc (a / n) : ℝ)

/-- One item of drawn content on the canvas raster.  Stroke and fill
primitives issued by the engine are recorded in order; a full-canvas
background fill (the clear operation) erases all previously drawn
content.  The turtle cursor glyph is an overlay determined by the
visible flag and is not part of the drawn content. -/
inductive CanvasItem where
  | lineSeg (x1 y1 x2 y2 : ℝ) (color : String) (width : ℝ)
  | circleStroke (cx cy r : ℝ) (color : String) (width : ℝ)
  | arcStroke (cx cy r a1 a2 : ℝ) (color : String) (width : ℝ)
  | dotFill (cx cy r : ℝ) (color : String)
  | pathFill (pts : List (ℝ × ℝ)) (color : String)
  | textDraw (s : String) (x y : ℝ) (font color : String)

/-- State of the TurtleEngine class from src/turtle/turtle-engine.js.
Position x, y is kept in raster coordinates (origin top-left, y down),
exactly as in the source; width and height are the canvas dimensions. -/
structure Engine where
  width : ℝ
  height : ℝ
  x : ℝ
  y : ℝ
  heading : ℝ
  penDown : Bool
  penColor : String
  penWidth : ℝ
  fillColor : String
  visible : Bool
  speed : ℝ
  commandQueue : List Unit
  history : List Unit
  backgroundColor : String
  surface : List CanvasItem
  path : List (ℝ × ℝ)

namespace Engine

/-- The clear method: fills the whole canvas with the background color,
erasing all drawn content (and repaints the cursor glyph overlay). -/
def clear (e : Engine) : Engine :=
  { e with surface := [] }

/-- The reset method: returns position, heading, pen and visibility
fields to their construction defaults, empties the queues and clears the
canvas.  It does not touch the speed or backgroundColor fields. -/
def reset (e : Engine) : Engine :=
  clear { e with
    x := e.width / 2
    y := e.height / 2
    heading := 0
    penDown := true
    penColor := "#000000"
    penWidth := 1
    fillColor := "#000000"
    visible := true
    commandQueue := []
    history := [] }

/-- The TurtleEngine constructor for a canvas of the given dimensions:
sets every field to its default and then calls reset. -/
def mk0 (w h : ℝ) : Engine :=
  reset  { width := w
           height := h
           x := w / 2
           y := h / 2
           heading := 0
           penDown := true
           penColor := "#000000"
           penWidth := 1
           fillColor := "#000000"
           visible := true
           speed := 5
           commandQueue := []
           history := []
           backgroundColor := "#FFFFFF"
           surface := []
           path := [] }

/-- The forward method: projects the distance along the current heading
with the convention that heading 0 points up, strokes the segment when
the pen is down, and commits the new position. -/
noncomputable def forward (e : Engine) (distance : ℝ) : Engine :=
  { e with
    x := e.x + distance * Real.cos ((e.heading - 90) * Real.pi / 180)
    y := e.y + distance * Real.sin ((e.heading - 90) * Real.pi / 180)
    surface :=
      if e.penDown then
        e.surface ++ [CanvasItem.lineSeg e.x e.y
          (e.x + distance * Real.cos ((e.heading - 90) * Real.pi / 180))
          (e.y + distance * Real.sin ((e.heading - 90) * Real.pi / 180))
          e.penColor e.penWidth]
      else e.surface }

/-- The backward method delegates to forward with the negated distance. -/
noncomputable def backward (e : Engine) (distance : ℝ) : Engine :=
  e.forward (-distance)

/-- The turnLeft method: subtracts the angle, takes the JavaScript
remainder by 360 and adds 360 when the remainder is negative. -/
noncomputable def turnLeft (e : Engine) (angle : ℝ) : Engine :=
  { e with heading :=
      if jsMod (e.heading - angle) 360 < 0 then jsMod (e.heading - angle) 360 + 360
      else jsMod (e.heading - angle) 360 }

/-- The turnRight method: adds the angle and takes the JavaScript
remainder by 360.  Unlike turnLeft, it performs no correction when the
remainder is negative. -/
noncomputable def turnRight (e : Engine) (angle : ℝ) : Engine :=
  { e with heading := jsMod (e.heading + angle) 360 }

/-- The setHeading method: remainder by 360 with negative correction. -/
noncomputable def setHeading (e : Engine) (angle : ℝ) : Engine :=
  { e with heading :=
      if jsMod angle 360 < 0 then jsMod angle 360 + 360 else jsMod angle 360 }

/-- The penUp method. -/
def penUp (e : Engine) : Engine := { e with penDown := false }

/-- The penDownCmd method. -/
def penDownCmd (e : Engine) : Engine := { e with penDown := true }

/-- The setPenColor method. -/
def setPenColor (e : Engine) (c : String) : Engine := { e with penColor := c }

/-- The setPenWidth method: clamps the width below by 1. -/
def setPenWidth (e : Engine) (w : ℝ) : Engine := { e with penWidth := max 1 w }

/-- The setFillColor method. -/
def setFillColor (e : Engine) (c : String) : Engine := { e with fillColor := c }

/-- The setBackgroundColor method: stores the color and clears. -/
def setBackgroundColor (e : Engine) (c : String) : Engine :=
  clear { e with backgroundColor := c }

/-- The home method: center position, heading north. -/
def home (e : Engine) : Engine :=
  { e with x := e.width / 2, y := e.height / 2, heading := 0 }

/-- The setPosition method: converts the centered coordinates to canvas
raster coordinates. -/
def setPosition (e : Engine) (px py : ℝ) : Engine :=
  { e with x := e.width / 2 + px, y := e.height / 2 - py }

/-- The getX method: raster x converted back to centered coordinates. -/
def getX (e : Engine) : ℝ := e.x - e.width / 2

/-- The getY method: raster y converted back to centered coordinates. -/
def getY (e : Engine) : ℝ := e.height / 2 - e.y

/-- The getHeading method. -/
def getHeading (e : Engine) : ℝ := e.heading

/-- The circle method: strokes a circle of the absolute radius at the
current position when the pen is down. -/
def circle (e : Engine) (radius : ℝ) : Engine :=
  { e with surface :=
      if e.penDown then
        e.surface ++ [CanvasItem.circleStroke e.x e.y |radius| e.penColor e.penWidth]
      else e.surface }

/-- The arc method: strokes an arc when the pen is down and then
advances the heading by the extent, remainder 360 with negative
correction. -/
noncomputable def arc (e : Engine) (radius extent : ℝ) : Engine :=
  { e with
    surface :=
      if e.penDown then
        e.surface ++ [CanvasItem.arcStroke e.x e.y |radius|
          ((e.heading - 90) * Real.pi / 180)
          ((e.heading - 90) * Real.pi / 180 + extent * Real.pi / 180)
          e.penColor e.penWidth]
      else e.surface
    heading :=
      if jsMod (e.heading + extent) 360 < 0 then jsMod (e.heading + extent) 360 + 360
      else jsMod (e.heading + extent) 360 }

/-- The dot method: fills a dot of half the given diameter. -/
def dot (e : Engine) (size : ℝ) : Engine :=
  { e with surface := e.surface ++ [CanvasItem.dotFill e.x e.y (size / 2) e.penColor] }

/-- The beginFill method: opens a path at the current position. -/
def beginFill (e : Engine) : Engine := { e with path := [(e.x, e.y)] }

/-- The endFill method: closes the path and fills it with fillColor. -/
def endFill (e : Engine) : Engine :=
  { e with surface := e.surface ++ [CanvasItem.pathFill e.path e.fillColor] }

/-- The showTurtle method. -/
def showTurtle (e : Engine) : Engine := { e with visible := true }

/-- The hideTurtle method. -/
def hideTurtle (e : Engine) : Engine := { e with visible := false }

/-- The setSpeed method: stores the argument clamped into 0 to 10. -/
def setSpeed (e : Engine) (s : ℝ) : Engine :=
  { e with speed := max 0 (min 10 s) }

/-- The redraw method repaints the cursor glyph overlay only; the engine
state is unchanged. -/
def redraw (e : Engine) : Engine := e

/-- The write method: fills text at the current position. -/
def write (e : Engine) (text font : String) : Engine :=
  { e with surface := e.surface ++ [CanvasItem.textDraw text e.x e.y font e.penColor] }

end Engine

/-- Four repetitions of forward by d then turnRight by 90, the square
scenario of the specification. -/
def squareRun (d : ℝ) (e : Engine) : Engine :=
  ((((((((e.forward d).turnRight 90).forward d).turnRight 90).forward
    d).turnRight 90).forward d).turnRight 90)

/-- One invocation of a public TurtleEngine method, as a command tag with
its arguments.  This enumerates every mutating method of the class. -/
inductive Cmd where
  | forward (d : ℝ)
  | backward (d : ℝ)
  | turnLeft (a : ℝ)
  | turnRight (a : ℝ)
  | setHeading (a : ℝ)
  | penUp
  | penDownCmd
  | setPenColor (c : String)
  | setPenWidth (w : ℝ)
  | setFillColor (c : String)
  | setBackgroundColor (c : String)
  | home
  | setPosition (px py : ℝ)
  | circle (r : ℝ)
  | arc (r ext : ℝ)
  | dot (s : ℝ)
  | beginFill
  | endFill
  | showTurtle
  | hideTurtle
  | setSpeed (s : ℝ)
  | write (t f : String)
  | clear
  | reset

/-- Dispatch of a command to the corresponding engine method. -/
def applyCmd (c : Cmd) (e : Engine) : Engine :=
  match c with
  | .forward d => e.forward d
  | .backward d => e.backward d
  | .turnLeft a => e.turnLeft a
  | .turnRight a => e.turnRight a
  | .setHeading a => e.setHeading a
  | .penUp => e.penUp
  | .penDownCmd => e.penDownCmd
  | .setPenColor c => e.setPenColor c
  | .setPenWidth w => e.setPenWidth w
  | .setFillColor c => e.setFillColor c
  | .setBackgroundColor c => e.setBackgroundColor c
  | .home => e.home
  | .setPosition px py => e.setPosition px py
  | .circle r => e.circle r
  | .arc r ext => e.arc r ext
  | .dot s => e.dot s
  | .beginFill => e.beginFill
  | .endFill => e.endFill
  | .showTurtle => e.showTurtle
  | .hideTurtle => e.hideTurtle
  | .setSpeed s => e.setSpeed s
  | .write t f => e.write t f
  | .clear => e.clear
  | .reset => e.reset

/-- Sequential application of a list of commands. -/
def applyCmds (l : List Cmd) (e : Engine) : Engine :=
  l.foldl (fun acc c => applyCmd c acc) e

/-!
The TurtleAPI object from src/turtle/turtle-api.js.  Each binding
guards on the module-level turtleEngine reference: when no engine has
been created the call is a no-op, and the read-backs return 0.  The
engine reference is modelled by an Option.
-/

namespace TurtleAPI

/-- The Forward binding. -/
def Forward (te : Option Engine) (d : ℝ) : Option Engine :=
  match te with
  | none => none
  | some e => some (e.forward d)

/-- The Backward binding. -/
def Backward (te : Option Engine) (d : ℝ) : Option Engine :=
  match te with
  | none => none
  | some e => some (e.backward d)

/-- The TurnLeft binding. -/
def TurnLeft (te : Option Engine) (a : ℝ) : Option Engine :=
  match te with
  | none => none
  | some e => some (e.turnLeft a)

/-- The TurnRight binding. -/
def TurnRight (te : Option Engine) (a : ℝ) : Option Engine :=
  match te with
  | none => none
  | some e => some (e.turnRight a)

/-- The SetHeading binding. -/
def SetHeading (te : Option Engine) (a : ℝ) : Option Engine :=
  match te with
  | none => none
  | some e => some (e.setHeading a)

/-- The PenUp binding. -/
def PenUp (te : Option Engine) : Option Engine :=
  match te with
  | none => none
  | some e => some e.penUp

/-- The PenDown binding (delegates to the penDownCmd method). -/
def PenDown (te : Option Engine) : Option Engine :=
  match te with
  | none => none
  | some e => some e.penDownCmd

/-- The SetPenColor binding. -/
def SetPenColor (te : Option Engine) (c : String) : Option Engine :=
  match te with
  | none => none
  | some e => some (e.setPenColor c)

/-- The SetPenWidth binding. -/
def SetPenWidth (te : Option Engine) (w : ℝ) : Option Engine :=
  match te with
  | none => none
  | some e => some (e.setPenWidth w)

/-- The SetFillColor binding. -/
def SetFillColor (te : Option Engine) (c : String) : Option Engine :=
  match te with
  | none => none
  | some e => some (e.setFillColor c)

/-- The Home binding. -/
def Home (te : Option Engine) : Option Engine :=
  match te with
  | none => none
  | some e => some e.home

/-- The SetPosition binding. -/
def SetPosition (te : Option Engine) (px py : ℝ) : Option Engine :=
  match te with
  | none => none
  | some e => some (e.setPosition px py)

/-- The GetX binding: 0 when no engine exists. -/
def GetX (te : Option Engine) : ℝ :=
  match te with
  | none => 0
  | some e => e.getX

/-- The GetY binding: 0 when no engine exists. -/
def GetY (te : Option Engine) : ℝ :=
  match te with
  | none => 0
  | some e => e.getY

/-- The GetHeading binding: 0 when no engine exists. -/
def GetHeading (te : Option Engine) : ℝ :=
  match te with
  | none => 0
  | some e => e.getHeading

/-- The Circle binding. -/
def Circle (te : Option Engine) (r : ℝ) : Option Engine :=
  match te with
  | none => none
  | some e => some (e.circle r)

/-- The Arc binding. -/
def Arc (te : Option Engine) (r ext : ℝ) : Option Engine :=
  match te with
  | none => none
  | some e => some (e.arc r ext)

/-- The Dot binding: a falsy (absent or zero) size argument falls back
to the default diameter 5. -/
def Dot (te : Option Engine) (size : Option ℝ) : Option Engine :=
  match te with
  | none => none
  | some e => some (e.dot (match size with
      | some s => if s = 0 then 5 else s
      | none => 5))

/-- The BeginFill binding. -/
def BeginFill (te : Option Engine) : Option Engine :=
  match te with
  | none => none
  | some e => some e.beginFill

/-- The EndFill binding. -/
def EndFill (te : Option Engine) : Option Engine :=
  match te with
  | none => none
  | some e => some e.endFill

/-- The Clear binding. -/
def Clear (te : Option Engine) : Option Engine :=
  match te with
  | none => none
  | some e => some e.clear

/-- The SetBackground binding. -/
def SetBackground (te : Option Engine) (c : String) : Option Engine :=
  match te with
  | none => none
  | some e => some (e.setBackgroundColor c)

/-- The ShowTurtle binding: shows the cursor and repaints it. -/
def ShowTurtle (te : Option Engine) : Option Engine :=
  match te with
  | none => none
  | some e => some e.showTurtle.redraw

/-- The HideTurtle binding. -/
def HideTurtle (te : Option Engine) : Option Engine :=
  match te with
  | none => none
  | some e => some e.hideTurtle

/-- The SetSpeed binding. -/
def SetSpeed (te : Option Engine) (s : ℝ) : Option Engine :=
  match te with
  | none => none
  | some e => some (e.setSpeed s)

/-- The Write binding: a falsy (absent or empty) font argument falls
back to the default font of the write method. -/
def Write (te : Option Engine) (t : String) (f : Option String) : Option Engine :=
  match te with
  | none => none
  | some e => some (e.write t (match f with
      | some s => if s = "" then "14px sans-serif" else s
      | none => "14px sans-serif"))

/-- The Reset binding. -/
def Reset (te : Option Engine) : Option Engine :=
  match te with
  | none => none
  | some e => some e.reset

end TurtleAPI

end TurtleModel

/-!
Normalization layer from src/core/dwscript-api.js.  Raw error values
arriving from the interpreter or from the JavaScript runtime are either
bare strings or objects with optional fields; JavaScript falsy-or
defaulting is modelled explicitly.
-/

/-- A raw error value: a bare string or an object with the optional
fields read by normalizeErrorObject. -/
inductive RawErr where
  | str (s : String)
  | obj (type : Option String) (message : Option String) (line : Option ℚ)
      (column : Option ℚ) (source : Option String) (details : Option String)
deriving DecidableEq

/-- JavaScript a || b for an optional string a: the default is taken
when the value is absent or the empty string (both falsy). -/
def jsOrStr (v : Option String) (d : String) : String :=
  match v with
  | some s => if s = "" then d else s
  | none => d

/-- JavaScript a || b for an optional number a: the default is taken
when the value is absent or zero (both falsy). -/
def jsOrNum (v : Option ℚ) (d : ℚ) : ℚ :=
  match v with
  | some q => if q = 0 then d else q
  | none => d

/-- JavaScript String(error) for the raw error values that reach
normalizeErrorObject: a string converts to itself and a plain object to
the standard object display form. -/
def jsStringOf (e : RawErr) : String :=
  match e with
  | .str s => s
  | .obj _ _ _ _ _ _ => "[object Object]"

/-- The canonical error shape produced by normalizeErrorObject: the
fields type, message, line, column, source and (for object inputs)
details.  The specification calls the type field kind. -/
structure NormError where
  type : String
  message : String
  line : ℚ
  column : ℚ
  source : Option String
  details : Option String
deriving DecidableEq

/-- The normalizeErrorObject method: a bare string becomes an Error
with the string as message and zero position; an object has each absent
or falsy field replaced by its default. -/
def normalizeErrorObject (e : RawErr) : NormError :=
  match e with
  | .str s =>
      { type := "Error", message := s, line := 0, column := 0
        source := none, details := none }
  | .obj t m l c src det =>
      { type := jsOrStr t "UnknownError"
        message := jsOrStr m (jsStringOf (.obj t m l c src det))
        line := jsOrNum l 0
        column := jsOrNum c 0
        source := match src with
          | some s => if s = "" then none else some s
          | none => none
        details := match det with
          | some s => if s = "" then none else some s
          | none => none }

/-- A raw result as delivered by the interpreter entry points: success
flag plus optional output, error, warnings and timing fields. -/
structure RawResult where
  success : Bool
  output : Option String
  error : Option RawErr
  warnings : Option (List String)
  executionTime : Option ℚ
deriving DecidableEq

/-- JavaScript truthiness of the optional error field: absent values
and the empty string are falsy, every object is truthy. -/
def errTruthy (v : Option RawErr) : Bool :=
  match v with
  | none => false
  | some (.str s) => if s = "" then false else true
  | some (.obj _ _ _ _ _ _) => true

/-- The normalized result shape shared by compile, eval and run. -/
structure ExecResult where
  success : Bool
  output : String
  errors : List NormError
  warnings : List String
  executionTime : ℚ
deriving DecidableEq

/-- The normalizeResult method: passes the success flag through,
defaults the output, wraps a truthy error value as a one-element error
list and an absent or falsy one as the empty list. -/
def normalizeResult (r : RawResult) : ExecResult :=
  { success := r.success
    output := jsOrStr r.output ""
    errors := match r.error with
      | none => []
      | some e => if errTruthy (some e) then [normalizeErrorObject e] else []
    warnings := match r.warnings with
      | none => []
      | some w => w
    executionTime := jsOrNum r.executionTime 0 }

/-- The normalizeError method: wraps a caught error value as a failed
result with exactly one normalized error. -/
def normalizeError (e : RawErr) : ExecResult :=
  { success := false
    output := ""
    errors := [normalizeErrorObject e]
    warnings := []
    executionTime := 0 }

/-- The result invariant stated by the specification: the success flag
is set exactly when the error list is empty. -/
def resultInvariant (r : ExecResult) : Prop :=
  r.success = true ↔ r.errors = []

/-!
Execution orchestration from src/core/executor.js.  The executeCode
function is modelled as a state transformer over its module-level
mutable state, with the asynchronous environment (WASM readiness, the
resolution of the underlying interpreter call, which contender of the
timeout race settles first, the measured wall time and memory readings)
supplied as an oracle.
-/

/-- Memory usage aggregate inside the execution metrics. -/
structure MemUsage where
  current : ℚ
  peak : ℚ
  wasmMemory : ℚ
deriving DecidableEq

/-- The module-level executionMetrics object. -/
structure ExecMetrics where
  totalExecutions : ℕ
  successfulExecutions : ℕ
  failedExecutions : ℕ
  totalExecutionTime : ℚ
  averageExecutionTime : ℚ
  lastExecutionTime : ℚ
  peakExecutionTime : ℚ
  timeouts : ℕ
  memoryUsage : MemUsage
deriving DecidableEq

/-- The module-level executionConfig object. -/
structure ExecConfig where
  defaultTimeout : ℕ
  enableTimeout : Bool
  maxExecutionTime : ℕ
deriving DecidableEq

/-- The module-level mutable state read and written by executeCode. -/
structure ExecState where
  isExecuting : Bool
  useWorkerExecution : Bool
  config : ExecConfig
  metrics : ExecMetrics
deriving DecidableEq

/-- The options argument of executeCode. -/
structure ExecOptions where
  timeout : Option ℕ
  useWorker : Option Bool
deriving DecidableEq

/-- The object returned by executeCode.  The early-return paths carry
only a success flag and a message; the normal paths carry a result
object; the outer catch carries an error string.  Absent fields are
modelled as none or the empty list. -/
structure ExecReturn where
  success : Bool
  message : Option String
  output : Option String
  errors : List NormError
  warnings : List String
  executionTime : Option ℚ
  error : Option String
deriving DecidableEq

/-- Resolution of the underlying interpreter invocation. -/
inductive CallOutcome where
  | resolves (r : ExecReturn)
  | rejects (msg : String)
deriving DecidableEq

/-- The asynchronous environment of one executeCode call. -/
structure ExecEnv where
  wasmReady : Bool
  call : CallOutcome
  timerFirst : Bool
  wallTime : ℚ
  heapSize : ℚ
  wasmMemory : ℚ
deriving DecidableEq

/-- One executeCode call: the returned object, the final module state,
and whether the underlying interpreter invocation was started. -/
structure ExecStep where
  ret : ExecReturn
  state : ExecState
  interpreterCalled : Bool
deriving DecidableEq

/-- The immediate result of the mutual-exclusion guard. -/
def alreadyExecutingReturn : ExecReturn :=
  { success := false, message := some "Already executing", output := none
    errors := [], warnings := [], executionTime := none, error := none }

/-- The result synthesized when the timeout timer wins the race. -/
def timeoutReturn (n : ℕ) : ExecReturn :=
  { success := false
    message := none
    output := some ""
    errors := [{ type := "TimeoutError"
                 message := "Execution timed out after " ++ toString n ++ "ms"
                 line := 0, column := 0, source := none, details := none }]
    warnings := []
    executionTime := some (n : ℚ)
    error := none }

/-- The effective timeout: the falsy-or of the options field with the
configured default (0 when timeouts are disabled). -/
def effTimeout (opts : ExecOptions) (cfg : ExecConfig) : ℕ :=
  match opts.timeout with
  | some t =>
      if t = 0 then (if cfg.enableTimeout then cfg.defaultTimeout else 0) else t
  | none => if cfg.enableTimeout then cfg.defaultTimeout else 0

/-- The updateMetrics function: bumps the counters, accumulates and
averages the wall time, tracks the peaks and stores memory readings. -/
def updateMetrics (m : ExecMetrics) (success : Bool) (t heap wasmMem : ℚ) :
    ExecMetrics :=
  { totalExecutions := m.totalExecutions + 1
    successfulExecutions :=
      if success then m.successfulExecutions + 1 else m.successfulExecutions
    failedExecutions :=
      if success then m.failedExecutions else m.failedExecutions + 1
    totalExecutionTime := m.totalExecutionTime + t
    averageExecutionTime := (m.totalExecutionTime + t) / ((m.totalExecutions + 1 : ℕ) : ℚ)
    lastExecutionTime := t
    peakExecutionTime := if m.peakExecutionTime < t then t else m.peakExecutionTime
    timeouts := m.timeouts
    memoryUsage :=
      { current := heap
        peak := if m.memoryUsage.peak < heap then heap else m.memoryUsage.peak
        wasmMemory := wasmMem } }

/-- Outcome of the guarded invocation region of executeCode: either a
result object together with the timedOut flag, or an exception escaping
to the outer catch. -/
inductive RunPhase where
  | got (r : ExecReturn) (timedOut : Bool)
  | escaped (msg : String)
deriving DecidableEq

/-- The awaited invocation of executeCode.  In worker mode the worker
manager rejects with the message Execution timeout when its timer fires
first, and the inner catch converts exactly that rejection into the
synthesized timeout result; in direct mode with a positive timeout the
race against the timer promise behaves the same; in direct mode without
a timeout the call is awaited bare and every rejection escapes to the
outer catch. -/
def runPhase (useWorker : Bool) (timeout : ℕ) (env : ExecEnv) : RunPhase :=
  if useWorker then
    match (if env.timerFirst then CallOutcome.rejects "Execution timeout" else env.call) with
    | .resolves r => .got r false
    | .rejects msg =>
        if msg = "Execution timeout" then .got (timeoutReturn timeout) true
        else .escaped msg
  else if 0 < timeout then
    match (if env.timerFirst then CallOutcome.rejects "Execution timeout" else env.call) with
    | .resolves r => .got r false
    | .rejects msg =>
        if msg = "Execution timeout" then .got (timeoutReturn timeout) true
        else .escaped msg
  else
    match env.call with
    | .resolves r => .got r false
    | .rejects msg => .escaped msg

/-- The shared tail of executeCode after the awaited invocation has
settled with a result: bump the timeout counter when the timer won,
update the metrics, release the executing flag and return the result. -/
def finishStep (st : ExecState) (r : ExecReturn) (timedOut : Bool) (env : ExecEnv) :
    ExecStep :=
  let m1 := if timedOut then
      { st.metrics with timeouts := st.metrics.timeouts + 1 }
    else st.metrics
  { ret := r
    state :=
      { st with
        isExecuting := false
        metrics := updateMetrics m1 r.success env.wallTime env.heapSize env.wasmMemory }
    interpreterCalled := true }

/-- The executeCode function: the mutual-exclusion guard, the WASM
readiness guard for direct mode, the awaited invocation with its
timeout race, the synthesis of the timeout result, the metrics update,
and the outer catch that converts an unrecognized rejection into a
failed return carrying the message. -/
def executeCode (st : ExecState) (opts : ExecOptions) (env : ExecEnv) : ExecStep :=
  if st.isExecuting then
    { ret := alreadyExecutingReturn, state := st, interpreterCalled := false }
  else
    let useWorker := opts.useWorker.getD st.useWorkerExecution
    if useWorker = false ∧ env.wasmReady = false then
      { ret := { success := false, message := some "WASM not ready", output := none
                 errors := [], warnings := [], executionTime := none, error := none }
        state := st, interpreterCalled := false }
    else
      let timeout := effTimeout opts st.config
      match runPhase useWorker timeout env with
      | .got r timedOut => finishStep st r timedOut env
      | .escaped msg =>
          { ret := { success := false, message := none, output := none
                     errors := [], warnings := [], executionTime := none
                     error := some msg }
            state := { st with isExecuting := false }
            interpreterCalled := true }

/-!
Theorems about the embedded program.
-/

/-- Claim C1 as stated is false: normalizeResult passes the raw success
flag through and builds the error list solely from the presence of a
truthy raw error field, so a raw result with success false and no error
field normalizes to a failed result with an empty error list. -/
theorem c1_counterexample :
    ¬ resultInvariant (normalizeResult
      { success := false, output := none, error := none, warnings := none
        executionTime := none }) := by
  simp [resultInvariant, normalizeResult]

/-- Claim C1 (amended): every result built by normalizeError satisfies
the invariant (success false with exactly one error), and a result
built by normalizeResult satisfies it provided the raw result carries a
truthy error field exactly when its success flag is false. -/
theorem c1_result_invariant_amended (r : RawResult) (e : RawErr)
    (h : errTruthy r.error = !r.success) :
    resultInvariant (normalizeResult r) ∧ resultInvariant (normalizeError e) := by
  constructor
  · unfold resultInvariant normalizeResult
    cases hs : r.success with
    | true =>
        rw [hs] at h
        cases he : r.error with
        | none => simp
        | some e0 =>
            rw [he] at h
            simp only [Bool.not_true] at h
            simp [h]
    | false =>
        rw [hs] at h
        cases he : r.error with
        | none => rw [he] at h; exact absurd h (by decide)
        | some e0 =>
            rw [he] at h
            simp only [Bool.not_false] at h
            simp [h]
  · unfold resultInvariant normalizeError
    simp

/-- Witness for the amended claim C1 at concrete inputs: a successful
raw result with no error field, and a bare string caught error. -/
theorem c1_witness :
    resultInvariant (normalizeResult
      { success := true, output := some "ok", error := none, warnings := none
        executionTime := some 3 }) ∧
    resultInvariant (normalizeError (.str "boom")) :=
  c1_result_invariant_amended
    { success := true, output := some "ok", error := none, warnings := none
      executionTime := some 3 }
    (.str "boom") (by decide)

/-- Claim C3: when the executing flag is set, executeCode returns the
Already executing result immediately, does not start the underlying
interpreter call, and leaves the whole module state (metrics included)
unchanged. -/
theorem c3_mutual_exclusion (st : ExecState) (opts : ExecOptions) (env : ExecEnv)
    (h : st.isExecuting = true) :
    executeCode st opts env =
      { ret := alreadyExecutingReturn, state := st, interpreterCalled := false } := by
  simp [executeCode, h]

/-- Witness for claim C3 at a concrete busy state. -/
theorem c3_witness :
    executeCode
      { isExecuting := true, useWorkerExecution := false
        config := { defaultTimeout := 30000, enableTimeout := true, maxExecutionTime := 120000 }
        metrics := { totalExecutions := 2, successfulExecutions := 1, failedExecutions := 1
                     totalExecutionTime := 10, averageExecutionTime := 5
                     lastExecutionTime := 4, peakExecutionTime := 6, timeouts := 0
                     memoryUsage := { current := 0, peak := 0, wasmMemory := 0 } } }
      { timeout := none, useWorker := none }
      { wasmReady := true, call := .rejects "late", timerFirst := false
        wallTime := 7, heapSize := 0, wasmMemory := 0 } =
      { ret := alreadyExecutingReturn
        state :=
          { isExecuting := true, useWorkerExecution := false
            config := { defaultTimeout := 30000, enableTimeout := true, maxExecutionTime := 120000 }
            metrics := { totalExecutions := 2, successfulExecutions := 1, failedExecutions := 1
                         totalExecutionTime := 10, averageExecutionTime := 5
                         lastExecutionTime := 4, peakExecutionTime := 6, timeouts := 0
                         memoryUsage := { current := 0, peak := 0, wasmMemory := 0 } } }
        interpreterCalled := false } :=
  c3_mutual_exclusion _ _ _ rfl

/-- Claim C4: normalizeErrorObject maps a bare string to an Error with
the string as message and zero position, and for object errors an
absent type field defaults to UnknownError and absent line and column
fields default to 0.  The canonical field the specification calls kind
is named type in the source. -/
theorem c4_normalize_error_object :
    (∀ s, normalizeErrorObject (.str s) =
      { type := "Error", message := s, line := 0, column := 0
        source := none, details := none }) ∧
    (∀ m l c src det,
      (normalizeErrorObject (.obj none m l c src det)).type = "UnknownError") ∧
    (∀ t m c src det,
      (normalizeErrorObject (.obj t m none c src det)).line = 0) ∧
    (∀ t m l src det,
      (normalizeErrorObject (.obj t m l none src det)).column = 0) :=
  ⟨fun _ => rfl, fun _ _ _ _ _ => rfl, fun _ _ _ _ _ => rfl, fun _ _ _ _ _ => rfl⟩

/-- Claim C5: when the state admits an execution, the effective timeout
is a positive n, and the timeout timer settles first (worker or direct
mode alike), executeCode returns the synthesized failed result with a
single TimeoutError whose message names n, and its recorded execution
time equals n. -/
theorem c5_timeout_result (st : ExecState) (opts : ExecOptions) (env : ExecEnv) (n : ℕ)
    (hbusy : st.isExecuting = false)
    (hmode : opts.useWorker.getD st.useWorkerExecution = true ∨ env.wasmReady = true)
    (ht : effTimeout opts st.config = n)
    (hpos : 0 < n)
    (htimer : env.timerFirst = true) :
    (executeCode st opts env).ret = timeoutReturn n ∧
    (executeCode st opts env).ret.success = false ∧
    (executeCode st opts env).ret.errors =
      [{ type := "TimeoutError"
         message := "Execution timed out after " ++ toString n ++ "ms"
         line := 0, column := 0, source := none, details := none }] ∧
    (executeCode st opts env).ret.executionTime = some (n : ℚ) := by
  have hret : (executeCode st opts env).ret = timeoutReturn n := by
    cases huw : opts.useWorker.getD st.useWorkerExecution with
    | true =>
        simp [executeCode, hbusy, huw, runPhase, htimer, ht, finishStep]
    | false =>
        rw [huw] at hmode
        have hready : env.wasmReady = true := by
          rcases hmode with hmode | hmode
          · exact absurd hmode (by simp)
          · exact hmode
        simp [executeCode, hbusy, huw, hready, runPhase, htimer, ht, hpos, finishStep]
  refine ⟨hret, ?_, ?_, ?_⟩ <;> rw [hret] <;> rfl

/-- Witness for claim C5 in direct mode with a 500 ms timeout whose
timer fires first. -/
theorem c5_witness :
    (executeCode
      { isExecuting := false, useWorkerExecution := false
        config := { defaultTimeout := 30000, enableTimeout := true, maxExecutionTime := 120000 }
        metrics := { totalExecutions := 0, successfulExecutions := 0, failedExecutions := 0
                     totalExecutionTime := 0, averageExecutionTime := 0
                     lastExecutionTime := 0, peakExecutionTime := 0, timeouts := 0
                     memoryUsage := { current := 0, peak := 0, wasmMemory := 0 } } }
      { timeout := some 500, useWorker := none }
      { wasmReady := true, call := .rejects "never settles", timerFirst := true
        wallTime := 501, heapSize := 0, wasmMemory := 0 }).ret = timeoutReturn 500 :=
  (c5_timeout_result
    { isExecuting := false, useWorkerExecution := false
      config := { defaultTimeout := 30000, enableTimeout := true, maxExecutionTime := 120000 }
      metrics := { totalExecutions := 0, successfulExecutions := 0, failedExecutions := 0
                   totalExecutionTime := 0, averageExecutionTime := 0
                   lastExecutionTime := 0, peakExecutionTime := 0, timeouts := 0
                   memoryUsage := { current := 0, peak := 0, wasmMemory := 0 } } }
    { timeout := some 500, useWorker := none }
    { wasmReady := true, call := .rejects "never settles", timerFirst := true
      wallTime := 501, heapSize := 0, wasmMemory := 0 }
    500 rfl (Or.inr rfl) rfl (by decide) rfl).1

/-- Claim C6: setPosition interprets its arguments as centered
coordinates and getX and getY invert the same affine transform, so the
round trip is exact. -/
theorem c6_set_position_round_trip (e : Engine) (px py : ℝ) :
    (e.setPosition px py).getX = px ∧ (e.setPosition px py).getY = py := by
  constructor <;>
    simp [Engine.setPosition, Engine.getX, Engine.getY]

/-- Claim C8 as stated is false: reset does not restore the speed field
to its construction default 5.  After setSpeed 9 and reset, the speed
is still 9. -/
theorem c8_counterexample :
    ((Engine.mk0 400 300).setSpeed 9).reset.speed ≠ (Engine.mk0 400 300).speed := by
  show max 0 (min 10 (9 : ℝ)) ≠ 5
  norm_num

/-- Claim C8 (amended): after reset, position, heading, pen state, pen
and fill colors, pen width and visibility equal their construction
defaults and the drawing surface is cleared; the speed field is left
unchanged rather than restored to its default. -/
theorem c8_reset_amended (e : Engine) :
    e.reset.x = e.width / 2 ∧ e.reset.y = e.height / 2 ∧ e.reset.heading = 0 ∧
    e.reset.penDown = true ∧ e.reset.penColor = "#000000" ∧ e.reset.penWidth = 1 ∧
    e.reset.fillColor = "#000000" ∧ e.reset.visible = true ∧
    e.reset.surface = [] ∧ e.reset.speed = e.speed :=
  ⟨rfl, rfl, rfl, rfl, rfl, rfl, rfl, rfl, rfl, rfl⟩

/-- Claim C9: every TurtleAPI binding invoked before a turtle engine
exists is a no-op (the absent engine stays absent and no exception is
possible, the bindings being total functions), and the read-backs GetX,
GetY and GetHeading return 0 in that state. -/
theorem c9_uninitialized_noop :
    (∀ d, TurtleAPI.Forward none d = none) ∧
    (∀ d, TurtleAPI.Backward none d = none) ∧
    (∀ a, TurtleAPI.TurnLeft none a = none) ∧
    (∀ a, TurtleAPI.TurnRight none a = none) ∧
    (∀ a, TurtleAPI.SetHeading none a = none) ∧
    TurtleAPI.PenUp none = none ∧
    TurtleAPI.PenDown none = none ∧
    (∀ c, TurtleAPI.SetPenColor none c = none) ∧
    (∀ w, TurtleAPI.SetPenWidth none w = none) ∧
    (∀ c, TurtleAPI.SetFillColor none c = none) ∧
    TurtleAPI.Home none = none ∧
    (∀ px py, TurtleAPI.SetPosition none px py = none) ∧
    (∀ r, TurtleAPI.Circle none r = none) ∧
    (∀ r ext, TurtleAPI.Arc none r ext = none) ∧
    (∀ s, TurtleAPI.Dot none s = none) ∧
    TurtleAPI.BeginFill none = none ∧
    TurtleAPI.EndFill none = none ∧
    TurtleAPI.Clear none = none ∧
    (∀ c, TurtleAPI.SetBackground none c = none) ∧
    TurtleAPI.ShowTurtle none = none ∧
    TurtleAPI.HideTurtle none = none ∧
    (∀ s, TurtleAPI.SetSpeed none s = none) ∧
    (∀ t f, TurtleAPI.Write none t f = none) ∧
    TurtleAPI.Reset none = none ∧
    TurtleAPI.GetX none = 0 ∧
    TurtleAPI.GetY none = 0 ∧
    TurtleAPI.GetHeading none = 0 :=
  ⟨fun _ => rfl, fun _ => rfl, fun _ => rfl, fun _ => rfl, fun _ => rfl,
   rfl, rfl, fun _ => rfl, fun _ => rfl, fun _ => rfl, rfl,
   fun _ _ => rfl, fun _ => rfl, fun _ _ => rfl, fun _ => rfl,
   rfl, rfl, rfl, fun _ => rfl, rfl, rfl, fun _ => rfl,
   fun _ _ => rfl, rfl, rfl, rfl, rfl⟩

/-- The speed field after one command: setSpeed stores the clamped
argument and every other engine method leaves speed untouched. -/
theorem applyCmd_speed (c : Cmd) (e : Engine) :
    (applyCmd c e).speed = match c with
      | Cmd.setSpeed s => max 0 (min 10 s)
      | _ => e.speed := by
  cases c <;> rfl

/-- The clamp written in the source, max 0 (min 10 s), agrees with the
clamp min 10 (max 0 s) stated by the claim. -/
theorem clamp_comm (s : ℝ) : max 0 (min 10 s) = min 10 (max 0 s) := by
  rcases le_total s 0 with hs | hs
  · have h1 : min 10 s = s := min_eq_right (by linarith)
    have h2 : max 0 s = 0 := max_eq_left hs
    rw [h1, h2, min_eq_right (by norm_num : (0:ℝ) ≤ 10)]
  · rcases le_total s 10 with hs10 | hs10
    · have h1 : min 10 s = s := min_eq_right hs10
      have h2 : max 0 s = s := max_eq_right hs
      rw [h1, h2, h1]
    · have h1 : min 10 s = 10 := min_eq_left hs10
      have h2 : max 0 s = s := max_eq_right hs
      rw [h1, h2, h1, max_eq_right (by norm_num : (0:ℝ) ≤ 10)]

/-- Bounds of the clamp. -/
theorem clamp_bounds (s : ℝ) : 0 ≤ max 0 (min 10 s) ∧ max 0 (min 10 s) ≤ 10 :=
  ⟨le_max_left _ _, max_le (by norm_num) (min_le_left _ _)⟩

/-- Speed bounds are preserved by every command. -/
theorem applyCmd_speed_bounds (c : Cmd) (e : Engine)
    (h0 : 0 ≤ e.speed) (h1 : e.speed ≤ 10) :
    0 ≤ (applyCmd c e).speed ∧ (applyCmd c e).speed ≤ 10 := by
  rw [applyCmd_speed]
  cases c
  case setSpeed s => exact clamp_bounds s
  all_goals exact ⟨h0, h1⟩

/-- Speed bounds are preserved by every command sequence. -/
theorem applyCmds_speed_bounds (l : List Cmd) (e : Engine)
    (h0 : 0 ≤ e.speed) (h1 : e.speed ≤ 10) :
    0 ≤ (applyCmds l e).speed ∧ (applyCmds l e).speed ≤ 10 := by
  induction l generalizing e with
  | nil => exact ⟨h0, h1⟩
  | cons c l ih =>
      have hb := applyCmd_speed_bounds c e h0 h1
      exact ih (applyCmd c e) hb.1 hb.2

/-- Claim C10: the speed field starts at 5, setSpeed stores its
argument clamped into the range 0 to 10, no other method (reset
included) modifies speed, and along every command sequence from a fresh
engine the speed stays within 0 to 10.  (The stored value is the
clamped argument itself, so it need not be an integer.) -/
theorem c10_speed_clamped :
    (∀ w h, (Engine.mk0 w h).speed = 5) ∧
    (∀ (e : Engine) (s : ℝ), (e.setSpeed s).speed = min 10 (max 0 s)) ∧
    (∀ (c : Cmd) (e : Engine),
      (applyCmd c e).speed = e.speed ∨ ∃ s, c = Cmd.setSpeed s) ∧
    (∀ e : Engine, e.reset.speed = e.speed) ∧
    (∀ (w h : ℝ) (l : List Cmd),
      0 ≤ (applyCmds l (Engine.mk0 w h)).speed ∧
      (applyCmds l (Engine.mk0 w h)).speed ≤ 10) := by
  refine ⟨fun _ _ => rfl, ?_, ?_, fun _ => rfl, ?_⟩
  · intro e s
    rw [show (e.setSpeed s).speed = max 0 (min 10 s) from rfl, clamp_comm]
  · intro c e
    cases c
    case setSpeed s => exact Or.inr ⟨s, rfl⟩
    all_goals exact Or.inl rfl
  · intro w h l
    exact applyCmds_speed_bounds l (Engine.mk0 w h)
      (by norm_num [show (Engine.mk0 w h).speed = 5 from rfl])
      (by norm_num [show (Engine.mk0 w h).speed = 5 from rfl])

/-- Claim C2 is right about the code only for turnLeft: turnRight omits
the negative correction, so a single turnRight with a negative argument
from the freshly constructed engine (heading 0) leaves the heading at
-90, outside the range 0 to 360 that every sibling mutator and the
specification normalize into. -/
theorem c2_turn_right_failing_input :
    ((Engine.mk0 400 400).turnRight (-90)).getHeading = -90 ∧
    ¬ (0 ≤ ((Engine.mk0 400 400).turnRight (-90)).getHeading ∧
        ((Engine.mk0 400 400).turnRight (-90)).getHeading < 360) := by
  have htr : jsTrunc (((0 : ℝ) + -90) / 360) = 0 := by
    unfold jsTrunc
    rw [if_neg (by norm_num)]
    rw [show ((0 : ℝ) + -90) / 360 = -(1 / 4) by norm_num, Int.ceil_neg,
      Int.floor_eq_zero_iff.mpr (by constructor <;> norm_num)]
    norm_num
  have hh : ((Engine.mk0 400 400).turnRight (-90)).getHeading =
      jsMod ((0 : ℝ) + -90) 360 := rfl
  rw [hh]
  unfold jsMod
  rw [htr]
  norm_num

/-- For a nonnegative dividend the JavaScript remainder by 360 agrees
with the floor-based remainder. -/
theorem jsMod_nonneg_eq (a : ℝ) (h : 0 ≤ a) :
    jsMod a 360 = a - 360 * (⌊a / 360⌋ : ℝ) := by
  unfold jsMod jsTrunc
  rw [if_pos (div_nonneg h (by norm_num))]

/-- One right turn by 90 degrees from a normalized heading: the new
heading differs from heading plus 90 by an integer multiple of 360 and
is again normalized. -/
theorem turn90_step {h : ℝ} (h0 : 0 ≤ h) (h1 : h < 360) :
    ∃ c : ℤ, jsMod (h + 90) 360 = h + 90 - 360 * c ∧
      0 ≤ jsMod (h + 90) 360 ∧ jsMod (h + 90) 360 < 360 := by
  rcases lt_or_le h 270 with hc | hc
  · have hfl : ⌊(h + 90) / 360⌋ = 0 := by
      rw [Int.floor_eq_zero_iff, Set.mem_Ico]
      constructor
      · exact div_nonneg (by linarith) (by norm_num)
      · rw [div_lt_one (by norm_num)]
        linarith
    have key : jsMod (h + 90) 360 = h + 90 := by
      rw [jsMod_nonneg_eq _ (by linarith), hfl]
      norm_num
    exact ⟨0, by rw [key]; push_cast; ring, by rw [key]; linarith, by rw [key]; linarith⟩
  · have hfl : ⌊(h + 90) / 360⌋ = 1 := by
      rw [Int.floor_eq_iff]
      constructor
      · rw [show ((1 : ℤ) : ℝ) = 1 by norm_num, le_div_iff₀ (by norm_num)]
        linarith
      · rw [show ((1 : ℤ) : ℝ) + 1 = 2 by norm_num, div_lt_iff₀ (by norm_num)]
        linarith
    have key : jsMod (h + 90) 360 = h - 270 := by
      rw [jsMod_nonneg_eq _ (by linarith), hfl]
      norm_num
      ring
    exact ⟨1, by rw [key]; push_cast; ring, by rw [key]; linarith, by rw [key]; linarith⟩

/-- Two angles in the normalized range that differ by an integer
multiple of 360 are equal. -/
theorem norm_eq_of_int_mul (k : ℤ) {a b : ℝ} (ha0 : 0 ≤ a) (ha1 : a < 360)
    (hb0 : 0 ≤ b) (hb1 : b < 360) (hk : a - b = 360 * k) : a = b := by
  have hk1 : (k : ℝ) < 1 := by linarith
  have hk2 : (-1 : ℝ) < (k : ℝ) := by linarith
  have hz : k = 0 := by
    have l1 : k < 1 := by exact_mod_cast hk1
    have l2 : (-1 : ℤ) < k := by exact_mod_cast hk2
    omega
  rw [hz] at hk
  push_cast at hk
  linarith

/-- The four cosines of a quarter-turn cycle cancel. -/
theorem cos_quarter_sum (A : ℝ) :
    Real.cos A + Real.cos (A + Real.pi / 2) + Real.cos (A + Real.pi) +
      Real.cos (A + Real.pi + Real.pi / 2) = 0 := by
  rw [Real.cos_add_pi_div_two, Real.cos_add_pi, Real.cos_add_pi_div_two,
    Real.sin_add_pi]
  ring

/-- The four sines of a quarter-turn cycle cancel. -/
theorem sin_quarter_sum (A : ℝ) :
    Real.sin A + Real.sin (A + Real.pi / 2) + Real.sin (A + Real.pi) +
      Real.sin (A + Real.pi + Real.pi / 2) = 0 := by
  rw [Real.sin_add_pi_div_two, Real.sin_add_pi, Real.sin_add_pi_div_two,
    Real.cos_add_pi]
  ring

/-- The forward method leaves the heading unchanged. -/
theorem forward_heading (e : Engine) (d : ℝ) : (e.forward d).heading = e.heading := rfl

/-- The x coordinate after forward. -/
theorem forward_x (e : Engine) (d : ℝ) :
    (e.forward d).x = e.x + d * Real.cos ((e.heading - 90) * Real.pi / 180) := rfl

/-- The y coordinate after forward. -/
theorem forward_y (e : Engine) (d : ℝ) :
    (e.forward d).y = e.y + d * Real.sin ((e.heading - 90) * Real.pi / 180) := rfl

/-- The heading after turnRight. -/
theorem turnRight_heading (e : Engine) (a : ℝ) :
    (e.turnRight a).heading = jsMod (e.heading + a) 360 := rfl

/-- The turnRight method leaves the position unchanged. -/
theorem turnRight_x (e : Engine) (a : ℝ) : (e.turnRight a).x = e.x := rfl

/-- The turnRight method leaves the position unchanged. -/
theorem turnRight_y (e : Engine) (a : ℝ) : (e.turnRight a).y = e.y := rfl

/-- Claim C7: from any turtle state whose heading satisfies the
normalization invariant, four repetitions of forward by d then
turnRight by 90 return the position and the heading exactly to their
starting values, over exact real arithmetic. -/
theorem c7_square_loop_closure (d : ℝ) (e : Engine)
    (h0 : 0 ≤ e.heading) (h1 : e.heading < 360) :
    (squareRun d e).x = e.x ∧ (squareRun d e).y = e.y ∧
    (squareRun d e).heading = e.heading := by
  obtain ⟨c1, e1, l1, u1⟩ := turn90_step h0 h1
  obtain ⟨c2, e2, l2, u2⟩ := turn90_step l1 u1
  rw [e1] at e2 l2 u2
  obtain ⟨c3, e3, l3, u3⟩ := turn90_step l2 u2
  rw [e2] at e3 l3 u3
  obtain ⟨c4, e4, l4, u4⟩ := turn90_step l3 u3
  rw [e3] at e4 l4 u4
  rw [e4] at l4 u4
  have hA1 : (e.heading + 90 - 360 * (c1 : ℝ) - 90) * Real.pi / 180 =
      ((e.heading - 90) * Real.pi / 180 + Real.pi / 2) +
        ((-c1 : ℤ) : ℝ) * (2 * Real.pi) := by
    push_cast
    ring
  have hA2 : (e.heading + 90 - 360 * (c1 : ℝ) + 90 - 360 * (c2 : ℝ) - 90) *
        Real.pi / 180 =
      ((e.heading - 90) * Real.pi / 180 + Real.pi) +
        ((-(c1 + c2) : ℤ) : ℝ) * (2 * Real.pi) := by
    push_cast
    ring
  have hA3 : (e.heading + 90 - 360 * (c1 : ℝ) + 90 - 360 * (c2 : ℝ) + 90 -
        360 * (c3 : ℝ) - 90) * Real.pi / 180 =
      ((e.heading - 90) * Real.pi / 180 + Real.pi + Real.pi / 2) +
        ((-(c1 + c2 + c3) : ℤ) : ℝ) * (2 * Real.pi) := by
    push_cast
    ring
  refine ⟨?_, ?_, ?_⟩
  · simp only [squareRun, forward_x, forward_heading, turnRight_x, turnRight_heading]
    rw [e1, e2, e3, hA1, hA2, hA3, Real.cos_add_int_mul_two_pi,
      Real.cos_add_int_mul_two_pi, Real.cos_add_int_mul_two_pi]
    linear_combination d * cos_quarter_sum ((e.heading - 90) * Real.pi / 180)
  · simp only [squareRun, forward_y, forward_heading, turnRight_y, turnRight_heading]
    rw [e1, e2, e3, hA1, hA2, hA3, Real.sin_add_int_mul_two_pi,
      Real.sin_add_int_mul_two_pi, Real.sin_add_int_mul_two_pi]
    linear_combination d * sin_quarter_sum ((e.heading - 90) * Real.pi / 180)
  · simp only [squareRun, forward_heading, turnRight_heading]
    rw [e1, e2, e3, e4]
    exact norm_eq_of_int_mul (1 - (c1 + c2 + c3 + c4)) l4 u4 h0 h1 (by push_cast; ring)

/-- The freshly constructed engine has heading 0. -/
theorem zero_le_mk0_heading : (0 : ℝ) ≤ (Engine.mk0 400 400).heading := le_refl 0

/-- The freshly constructed engine has heading below 360. -/
theorem mk0_heading_lt : (Engine.mk0 400 400).heading < 360 := by
  rw [show (Engine.mk0 400 400).heading = 0 from rfl]
  norm_num

/-- Witness for claim C7 at distance 5 from the freshly constructed
engine. -/
theorem c7_witness :
    (squareRun 5 (Engine.mk0 400 400)).x = (Engine.mk0 400 400).x ∧
    (squareRun 5 (Engine.mk0 400 400)).y = (Engine.mk0 400 400).y ∧
    (squareRun 5 (Engine.mk0 400 400)).heading = (Engine.mk0 400 400).heading :=
  c7_square_loop_closure 5 (Engine.mk0 400 400) zero_le_mk0_heading mk0_heading_lt

end DwsPrimer
